import Mathlib

/-!
Verification development for the TLI493D-W2BW magnetic-sensor driver
(`src/Tli493d.h`).  The repository ships the class header only; the
implementation files (`Tli493d.cpp`, `util/RegMask.h/.cpp`,
`util/Tli493d_conf.h`, `util/BusInterface.h`) are not part of the sources,
so the bodies of the operations are modelled from the specification
(spec.md) and from the doc comments in the header itself.  All machine
bytes are `Nat` values understood modulo 2^8; registers are a `List Nat`
mirror; physical bus writes are recorded in an explicit log so that
"no physical I/O" is a provable statement.
-/

set_option maxHeartbeats 1000000

/-- Error outcomes of `updateData`, from the `Tli493d_Error` enum in
`src/Tli493d.h` (values 0, 1, 2). -/
inductive Tli493d_Error where
  | TLI493D_NO_ERROR
  | TLI493D_BUS_ERROR
  | TLI493D_FRAME_ERROR
deriving DecidableEq, Repr

/-- Numeric value of each `Tli493d_Error` constant, as in the header. -/
def Tli493d_Error.encode : Tli493d_Error → Nat
  | .TLI493D_NO_ERROR => 0
  | .TLI493D_BUS_ERROR => 1
  | .TLI493D_FRAME_ERROR => 2

/-- The three valid access modes of `AccessMode_e` in `src/Tli493d.h`;
encoding 2 is reserved and has no constructor. -/
inductive AccessMode_e where
  | LOWPOWERMODE
  | MASTERCONTROLLEDMODE
  | FASTMODE
deriving DecidableEq, Repr

/-- Numeric encoding of `AccessMode_e` as written in the header:
LOWPOWERMODE = 0, MASTERCONTROLLEDMODE = 1, FASTMODE = 3. -/
def AccessMode_e.encode : AccessMode_e → Nat
  | .LOWPOWERMODE => 0
  | .MASTERCONTROLLEDMODE => 1
  | .FASTMODE => 3

/-- The three valid measurement ranges of `Range_e` in `src/Tli493d.h`;
encoding 2 is reserved and has no constructor. -/
inductive Range_e where
  | FULL
  | SHORT
  | EXTRASHORT
deriving DecidableEq, Repr

/-- Numeric encoding of `Range_e` as written in the header:
FULL = 0, SHORT = 1, EXTRASHORT = 3. -/
def Range_e.encode : Range_e → Nat
  | .FULL => 0
  | .SHORT => 1
  | .EXTRASHORT => 3

/-- Access kind of a register field (read-only / write-only / read-write),
from the Field Descriptor data model of spec.md section 3. -/
inductive Access where
  | readOnly
  | writeOnly
  | readWrite
deriving DecidableEq, Repr

/-- Modelled from the spec: the register-mask table (`util/RegMask.h`, not
under src) describes for each named field its byte index, bit offset
(shift), bit width and access kind (spec.md section 3, Field Descriptor). -/
structure RegMask where
  byteAdress : Nat
  shift : Nat
  width : Nat
  access : Access
deriving DecidableEq, Repr

/-- A field is writable unless it is read-only. -/
def RegMask.writable (m : RegMask) : Bool :=
  match m.access with
  | .readOnly => false
  | _ => true

/-- A field is readable unless it is write-only. -/
def RegMask.readable (m : RegMask) : Bool :=
  match m.access with
  | .writeOnly => false
  | _ => true

/-- The in-byte bit mask covering the field: `width` ones shifted left by
`shift`. -/
def RegMask.bitMask (m : RegMask) : Nat := (2 ^ m.width - 1) <<< m.shift

/-- Modelled from the spec: `Tli493d::setRegBits` (implementation in
`Tli493d.cpp`/`util/RegMask.cpp`, not under src).  Per spec.md section 4.1 it
writes `data` masked to the field's bit width into the register mirror at
the field's byte/bit location, leaves all other bits of that byte
untouched, and refuses read-only fields; no physical I/O occurs. -/
def setRegBits (m : RegMask) (regData : List Nat) (data : Nat) : List Nat :=
  if m.writable then
    regData.set m.byteAdress
      ((regData.getD m.byteAdress 0 &&& (255 ^^^ m.bitMask)) |||
        ((data <<< m.shift) &&& m.bitMask))
  else regData

/-- Modelled from the spec: `Tli493d::getRegBits` (implementation not under
src).  Per spec.md section 4.1 it returns the field's bits right-shifted and
masked to the field's width, and fails on a write-only field. -/
def getRegBits (m : RegMask) (regData : List Nat) : Option Nat :=
  if m.readable then
    some ((regData.getD m.byteAdress 0 &&& m.bitMask) >>> m.shift)
  else none

/-- Driver state: the register mirror, a log of physical bus writes
(address, value), the configuration fields of spec.md section 3 and the
stored measurement sample (`mXdata` .. `mTempdata` of the class).
`readLen` is the frame length expected from the active one-byte/two-byte
read protocol; `wuXH` .. `wuZL` are the wake-up threshold registers. -/
structure SensorState where
  regData : List Nat
  busLog : List (Nat × Nat)
  readLen : Nat
  mMode : AccessMode_e
  range : Range_e
  wakeUp : Bool
  tBit : Bool
  cpOdd : Bool
  cfFlag : Bool
  tempEnabled : Bool
  bzEnabled : Bool
  mXdata : Int
  mYdata : Int
  mZdata : Int
  mTempdata : Int
  wuXH : Int
  wuXL : Int
  wuYH : Int
  wuYL : Int
  wuZH : Int
  wuZL : Int
deriving DecidableEq, Repr

/-- `setRegBits` lifted to the driver state: it only rewrites the mirror;
in particular the bus log is untouched (no physical I/O). -/
def setRegBitsS (m : RegMask) (data : Nat) (s : SensorState) : SensorState :=
  { s with regData := setRegBits m s.regData data }

/-- Number of set bits of byte `b` among the positions `ps`. -/
def bitCount (ps : List Nat) (b : Nat) : Nat :=
  (ps.map fun i => if b.testBit i then 1 else 0).sum

/-- Modelled from the spec: `Tli493d::calcParity` (implementation in
`Tli493d.cpp`, not under src).  Per spec.md section 4.2 it recomputes odd
parity over the watched bit positions of the byte (the parity bit itself
excluded from `watched`) and writes the parity bit so that the total count
of set bits among watched positions plus the parity bit is odd. -/
def calcParity (watched : List Nat) (pBit : Nat) (b : Nat) : Nat :=
  if bitCount watched b % 2 = 0 then b ||| (1 <<< pBit)
  else b &&& (255 ^^^ (1 <<< pBit))

/-- Modelled from the spec: the commit path (`writeOut` in `Tli493d.cpp`,
not under src).  Per spec.md section 4.2 parity recomputation is bundled
into the write path: the byte at `addr` is parity-corrected in the mirror
and then physically written (appended to the bus log). -/
def commitByte (watched : List Nat) (pBit : Nat) (addr : Nat)
    (s : SensorState) : SensorState :=
  let b := calcParity watched pBit (s.regData.getD addr 0)
  { s with regData := s.regData.set addr b, busLog := s.busLog ++ [(addr, b)] }

/-- Two's-complement reading of a 12-bit raw value. -/
def signed12 (raw : Nat) : Int :=
  if raw < 2048 then (raw : Int) else (raw : Int) - 4096

/-- Modelled from the spec: `Tli493d::concatResults` (implementation in
`Tli493d.cpp`, not under src).  Per spec.md section 4.3 the upper byte's 8
bits form the high-order bits and the lower byte's top nibble the low-order
4 bits of a 12-bit two's-complement value, sign-extended to a full signed
word; the temperature path (`isB = false`) uses the same assembly rule. -/
def concatResults (upperByte lowerByte : Nat) (isB : Bool) : Int :=
  match isB with
  | true => signed12 ((upperByte <<< 4) ||| (lowerByte >>> 4))
  | false => signed12 ((upperByte <<< 4) ||| (lowerByte >>> 4))

/-- Modelled from the spec: the per-range sensitivity constants
(`util/Tli493d_conf.h`, not under src).  Per the `Range_e` doc comment in
the header: full 7.7 LSB/mT, short 15.4 LSB/mT, extra-short 30.8 LSB/mT.
Floating-point arithmetic is modelled over the rationals. -/
def scaleOf : Range_e → ℚ
  | .FULL => 77 / 10
  | .SHORT => 154 / 10
  | .EXTRASHORT => 308 / 10

/-- Modelled from the spec: conversion of a raw reading to physical units,
`toPhysical(raw, scale) = raw / scale` (spec.md section 4.3). -/
def toPhysical (raw : Int) (scale : ℚ) : ℚ := (raw : ℚ) / scale

/-- The Cartesian x-coordinate in mT exposed by `getX`: the stored raw
sample scaled by the active range's sensitivity. -/
def getX (s : SensorState) : ℚ := toPhysical s.mXdata (scaleOf s.range)

/-- The Cartesian y-coordinate in mT exposed by `getY`. -/
def getY (s : SensorState) : ℚ := toPhysical s.mYdata (scaleOf s.range)

/-- The Cartesian z-coordinate in mT exposed by `getZ`. -/
def getZ (s : SensorState) : ℚ := toPhysical s.mZdata (scaleOf s.range)

/-- Modelled from the spec: `Tli493d::updateData` (implementation in
`Tli493d.cpp`, not under src).  Per spec.md section 4.4: one physical
multi-byte read (its outcome is the `busResult` argument: `none` is a
transport-level bus error, `some frame` the returned bytes); a frame whose
length does not match the active read protocol's expected length is a
frame error; on success the mirror is resynchronised wholesale and
X/Y/Z/temperature are decoded via `concatResults`; on bus or frame error
the previously stored values are left unchanged. -/
def updateData (busResult : Option (List Nat)) (s : SensorState) :
    Tli493d_Error × SensorState :=
  match busResult with
  | none => (.TLI493D_BUS_ERROR, s)
  | some frame =>
    if frame.length = s.readLen then
      (.TLI493D_NO_ERROR,
        { s with
          regData := frame,
          mXdata := concatResults (frame.getD 0 0) (frame.getD 4 0) true,
          mYdata := concatResults (frame.getD 1 0) (frame.getD 4 0 * 16 % 256) true,
          mZdata := concatResults (frame.getD 2 0) (frame.getD 5 0 * 16 % 256) true,
          mTempdata := concatResults (frame.getD 3 0) (frame.getD 5 0) false })
    else (.TLI493D_FRAME_ERROR, s)

/-- Modelled from the spec: `Tli493d::setMeasurementRange` (implementation
in `Tli493d.cpp`, not under src).  Per the header doc: EXTRASHORT enables
the T-bit and therefore cannot be combined with wake-up; while wake-up is
enabled the call returns false without taking effect, otherwise the range
(and the T-bit, set exactly for EXTRASHORT) is configured. -/
def setMeasurementRange (r : Range_e) (s : SensorState) : Bool × SensorState :=
  if r = .EXTRASHORT ∧ s.wakeUp = true then (false, s)
  else (true, { s with range := r, tBit := decide (r = .EXTRASHORT) })

/-- Modelled from the spec: `Tli493d::enableWakeUp` (implementation in
`Tli493d.cpp`, not under src).  Per the header doc it engages only when
test modes are disabled (T-bit 0), the CP parity bit is odd and the CF
flag is set; otherwise it is a no-op. -/
def enableWakeUp (s : SensorState) : SensorState :=
  if s.tBit = false ∧ s.cpOdd = true ∧ s.cfFlag = true then
    { s with wakeUp := true }
  else s

/-- Modelled from the spec: `Tli493d::disableWakeUp` (implementation in
`Tli493d.cpp`, not under src). -/
def disableWakeUp (s : SensorState) : SensorState :=
  { s with wakeUp := false }

/-- Modelled from the spec / header: `void Tli493d::disableBz(void)` — the
header under src declares a void return, so the only caller-visible result
is `Unit`; per the header doc disabling Bz works only when temperature
measurement is disabled as well, otherwise nothing happens. -/
def disableBz (s : SensorState) : Unit × SensorState :=
  if s.tempEnabled then ((), s) else ((), { s with bzEnabled := false })

/-- Modelled from the spec / header: `void Tli493d::enableBz(void)`,
unconditional. -/
def enableBz (s : SensorState) : Unit × SensorState :=
  ((), { s with bzEnabled := true })

/-- Modelled from the spec / header: `void Tli493d::enableTemp(void)`,
unconditional. -/
def enableTemp (s : SensorState) : Unit × SensorState :=
  ((), { s with tempEnabled := true })

/-- The rejection guard shared by the raw-LSB threshold setter: any upper
threshold below its paired lower threshold, or any argument outside the
signed 12-bit domain [-2048, 2047]. -/
def lsbDomainBad (xh xl yh yl zh zl : Int) : Prop :=
  xh < xl ∨ yh < yl ∨ zh < zl ∨
  2047 < xh ∨ xh < -2048 ∨ 2047 < xl ∨ xl < -2048 ∨
  2047 < yh ∨ yh < -2048 ∨ 2047 < yl ∨ yl < -2048 ∨
  2047 < zh ∨ zh < -2048 ∨ 2047 < zl ∨ zl < -2048

instance (xh xl yh yl zh zl : Int) :
    Decidable (lsbDomainBad xh xl yh yl zh zl) := by
  unfold lsbDomainBad
  infer_instance

/-- A per-axis span (upper minus lower) exceeding half of the 12-bit
output range (4096 / 2 = 2048 LSB). -/
def spanBad (xh xl yh yl zh zl : Int) : Prop :=
  2048 < xh - xl ∨ 2048 < yh - yl ∨ 2048 < zh - zl

instance (xh xl yh yl zh zl : Int) :
    Decidable (spanBad xh xl yh yl zh zl) := by
  unfold spanBad
  infer_instance

/-- The rejection guard of the normalized-ratio threshold setter: bad
ordering or any ratio outside [-1, 1]. -/
def ratioDomainBad (xh xl yh yl zh zl : ℚ) : Prop :=
  xh < xl ∨ yh < yl ∨ zh < zl ∨
  1 < xh ∨ xh < -1 ∨ 1 < xl ∨ xl < -1 ∨
  1 < yh ∨ yh < -1 ∨ 1 < yl ∨ yl < -1 ∨
  1 < zh ∨ zh < -1 ∨ 1 < zl ∨ zl < -1

instance (xh xl yh yl zh zl : ℚ) :
    Decidable (ratioDomainBad xh xl yh yl zh zl) := by
  unfold ratioDomainBad
  infer_instance

/-- Bad ordering among the mT threshold arguments. -/
def mtOrderBad (xh xl yh yl zh zl : ℚ) : Prop :=
  xh < xl ∨ yh < yl ∨ zh < zl

instance (xh xl yh yl zh zl : ℚ) :
    Decidable (mtOrderBad xh xl yh yl zh zl) := by
  unfold mtOrderBad
  infer_instance

/-- Writing the six raw-LSB thresholds into the wake-up registers of the
mirror. -/
def writeWakeUpRegs (xh xl yh yl zh zl : Int) (s : SensorState) : SensorState :=
  { s with wuXH := xh, wuXL := xl, wuYH := yh, wuYL := yl,
           wuZH := zh, wuZL := zl }

/-- Modelled from the spec: `Tli493d::setWakeUpThresholdLSB`
(implementation in `Tli493d.cpp`, not under src).  Per the header doc and
spec.md section 4.3: arguments outside [-2048, 2047] or a mis-ordered pair
are rejected with no effect; then the thresholds are written to the
wake-up registers, and if any axis span exceeds half the output range the
call still returns false even though the values were written. -/
def setWakeUpThresholdLSB (xh xl yh yl zh zl : Int) (s : SensorState) :
    Bool × SensorState :=
  if lsbDomainBad xh xl yh yl zh zl then (false, s)
  else
    let s' := writeWakeUpRegs xh xl yh yl zh zl s
    if spanBad xh xl yh yl zh zl then (false, s') else (true, s')

/-- Modelled from the spec: conversion of a normalized ratio in [-1, 1] to
the raw signed 12-bit LSB representation, rounding to the nearest
representable value (spec.md section 4.3). -/
def ratioToLSB (q : ℚ) : Int := round (q * 2047)

/-- Modelled from the spec: `Tli493d::setWakeUpThreshold` (implementation
in `Tli493d.cpp`, not under src).  Ratios are validated (ordering and
domain [-1, 1]) with no effect on failure, then converted to raw LSB and
funnelled into `setWakeUpThresholdLSB`. -/
def setWakeUpThreshold (xh xl yh yl zh zl : ℚ) (s : SensorState) :
    Bool × SensorState :=
  if ratioDomainBad xh xl yh yl zh zl then (false, s)
  else
    setWakeUpThresholdLSB (ratioToLSB xh) (ratioToLSB xl) (ratioToLSB yh)
      (ratioToLSB yl) (ratioToLSB zh) (ratioToLSB zl) s

/-- Modelled from the spec: conversion of a physical mT value to raw LSB
using the active range's sensitivity, rounding to the nearest
representable value (spec.md section 4.3). -/
def mTToLSB (q : ℚ) (r : Range_e) : Int := round (q * scaleOf r)

/-- Modelled from the spec: `Tli493d::setWakeUpThresholdMT`
(implementation in `Tli493d.cpp`, not under src).  The mT arguments are
validated for ordering with no effect on failure, converted to raw LSB via
the active range's sensitivity and funnelled into
`setWakeUpThresholdLSB`, whose domain check rejects mT values outside the
representable range. -/
def setWakeUpThresholdMT (xh xl yh yl zh zl : ℚ) (s : SensorState) :
    Bool × SensorState :=
  if mtOrderBad xh xl yh yl zh zl then (false, s)
  else
    setWakeUpThresholdLSB (mTToLSB xh s.range) (mTToLSB xl s.range)
      (mTToLSB yh s.range) (mTToLSB yl s.range) (mTToLSB zh s.range)
      (mTToLSB zl s.range) s

/-- The mutual-exclusion invariant of spec.md section 3: the EXTRASHORT
range implies the T-bit, and wake-up and EXTRASHORT are never active
together. -/
def RangeWakeInv (s : SensorState) : Prop :=
  (s.range = .EXTRASHORT → s.tBit = true) ∧
  ¬(s.wakeUp = true ∧ s.range = .EXTRASHORT)

/-- A concrete driver state used by the witnesses: zeroed 23-byte mirror,
empty bus log, master-controlled mode, full range, wake-up enabled,
temperature and Bz enabled. -/
def s0 : SensorState :=
  { regData := List.replicate 23 0, busLog := [], readLen := 7,
    mMode := .MASTERCONTROLLEDMODE, range := .FULL, wakeUp := true,
    tBit := false, cpOdd := true, cfFlag := true, tempEnabled := true,
    bzEnabled := true, mXdata := 3, mYdata := -5, mZdata := 7,
    mTempdata := 11, wuXH := 0, wuXL := 0, wuYH := 0, wuYL := 0,
    wuZH := 0, wuZL := 0 }

/-- Concrete field descriptors and mirror used by the witnesses. -/
def m0 : RegMask := { byteAdress := 1, shift := 3, width := 2, access := .readWrite }

/-- A sibling field in the same mirror byte as `m0`, bit-disjoint from it. -/
def g0 : RegMask := { byteAdress := 1, shift := 0, width := 3, access := .readWrite }

/-- A concrete three-byte register mirror for the witnesses. -/
def rd0 : List Nat := [5, 255, 9]

/-- The witness state with temperature measurement disabled. -/
def sTempOff : SensorState := { s0 with tempEnabled := false }

theorem maskRoundTrip (old v sh w : Nat) (h : sh + w ≤ 8) :
    (((old &&& (255 ^^^ ((2 ^ w - 1) <<< sh))) |||
        ((v <<< sh) &&& ((2 ^ w - 1) <<< sh))) &&&
      ((2 ^ w - 1) <<< sh)) >>> sh = v &&& (2 ^ w - 1) := by
  apply Nat.eq_of_testBit_eq
  intro i
  have h255 : (255 : Nat) = 2 ^ 8 - 1 := by norm_num
  rw [h255]
  simp only [Nat.testBit_shiftRight, Nat.testBit_and, Nat.testBit_or,
    Nat.testBit_xor, Nat.testBit_shiftLeft, Nat.testBit_two_pow_sub_one,
    ge_iff_le]
  have hsh : sh ≤ sh + i := Nat.le_add_right _ _
  by_cases hiw : i < w
  · have h8 : sh + i < 8 := by omega
    simp [hsh, hiw, h8, Nat.add_sub_cancel_left]
  · simp [hsh, hiw, Nat.add_sub_cancel_left]

theorem maskNonInterfere (old v msh mw gsh gw : Nat) (hg : gsh + gw ≤ 8)
    (hdisj : ((2 ^ gw - 1) <<< gsh) &&& ((2 ^ mw - 1) <<< msh) = 0) :
    (((old &&& (255 ^^^ ((2 ^ mw - 1) <<< msh))) |||
        ((v <<< msh) &&& ((2 ^ mw - 1) <<< msh))) &&&
      ((2 ^ gw - 1) <<< gsh)) = old &&& ((2 ^ gw - 1) <<< gsh) := by
  apply Nat.eq_of_testBit_eq
  intro i
  have hbit := congrArg (fun n => n.testBit i) hdisj
  simp only [Nat.testBit_and, Nat.testBit_shiftLeft, Nat.testBit_two_pow_sub_one,
    Nat.zero_testBit, ge_iff_le] at hbit
  have h255 : (255 : Nat) = 2 ^ 8 - 1 := by norm_num
  rw [h255]
  simp only [Nat.testBit_and, Nat.testBit_or, Nat.testBit_xor,
    Nat.testBit_shiftLeft, Nat.testBit_two_pow_sub_one, ge_iff_le]
  by_cases hA : gsh ≤ i
  · by_cases hB : i - gsh < gw
    · have hi8 : i < 8 := by omega
      have hmm : ¬(msh ≤ i ∧ i - msh < mw) := by
        rintro ⟨hC, hD⟩
        simp [hA, hB, hC, hD] at hbit
      by_cases hC : msh ≤ i
      · have hD : ¬ i - msh < mw := fun hD => hmm ⟨hC, hD⟩
        simp [hA, hB, hC, hD, hi8]
      · simp [hA, hB, hC, hi8]
    · simp [hB]
  · simp [hA]


theorem getD_set_self (l : List Nat) (i b : Nat) (h : i < l.length) :
    (l.set i b).getD i 0 = b := by
  simp [List.getD_eq_getElem?_getD, List.getElem?_set_self h]

theorem getD_set_other (l : List Nat) (i j b : Nat) (h : i ≠ j) :
    (l.set i b).getD j 0 = l.getD j 0 := by
  simp [List.getD_eq_getElem?_getD, List.getElem?_set_ne h]

/-- C1: for every writable and readable field descriptor and every value,
`setRegBits` followed by `getRegBits` on the same field returns the value
masked to the field's bit width; the set leaves every bit-disjoint sibling
field of the same mirror byte unchanged and every other mirror byte
unchanged; and neither operation performs physical I/O (the bus log of the
driver state is untouched; `getRegBits` is a pure function of the
mirror). -/
theorem setRegBits_getRegBits_roundTrip (m g : RegMask) (rd : List Nat)
    (v : Nat) (s : SensorState)
    (hw : m.writable = true) (hr : m.readable = true)
    (hfit : m.shift + m.width ≤ 8)
    (hlen : m.byteAdress < rd.length)
    (hgb : g.byteAdress = m.byteAdress)
    (hgfit : g.shift + g.width ≤ 8)
    (hdisj : g.bitMask &&& m.bitMask = 0) :
    getRegBits m (setRegBits m rd v) = some (v &&& (2 ^ m.width - 1)) ∧
    getRegBits g (setRegBits m rd v) = getRegBits g rd ∧
    (∀ i, i ≠ m.byteAdress → (setRegBits m rd v).getD i 0 = rd.getD i 0) ∧
    (setRegBitsS m v s).busLog = s.busLog := by
  have hset : setRegBits m rd v =
      rd.set m.byteAdress
        ((rd.getD m.byteAdress 0 &&& (255 ^^^ m.bitMask)) |||
          ((v <<< m.shift) &&& m.bitMask)) := by
    simp [setRegBits, hw]
  have hbyte : (setRegBits m rd v).getD m.byteAdress 0 =
      (rd.getD m.byteAdress 0 &&& (255 ^^^ m.bitMask)) |||
        ((v <<< m.shift) &&& m.bitMask) := by
    rw [hset]
    exact getD_set_self _ _ _ hlen
  refine ⟨?_, ?_, ?_, rfl⟩
  · simp only [getRegBits, hr, if_pos, hbyte, RegMask.bitMask]
    rw [maskRoundTrip _ _ _ _ hfit]
  · cases hgr : g.readable with
    | false => simp [getRegBits, hgr]
    | true =>
      simp only [getRegBits, hgr, if_pos, hgb, hbyte, RegMask.bitMask]
      rw [RegMask.bitMask] at hdisj
      rw [maskNonInterfere _ _ _ _ _ _ hgfit hdisj]
  · intro i hi
    rw [hset]
    exact getD_set_other _ _ _ _ (fun he => hi he.symm)

/-- Witness for C1 at the concrete fields `m0`, `g0`, mirror `rd0` and
value 6. -/
theorem setRegBits_getRegBits_roundTrip_witness :
    (m0.writable = true ∧ m0.readable = true ∧ m0.shift + m0.width ≤ 8 ∧
      m0.byteAdress < rd0.length ∧ g0.byteAdress = m0.byteAdress ∧
      g0.shift + g0.width ≤ 8 ∧ g0.bitMask &&& m0.bitMask = 0) ∧
    getRegBits m0 (setRegBits m0 rd0 6) = some (6 &&& (2 ^ m0.width - 1)) ∧
    getRegBits g0 (setRegBits m0 rd0 6) = getRegBits g0 rd0 ∧
    (setRegBitsS m0 6 s0).busLog = s0.busLog :=
  ⟨by decide,
    (setRegBits_getRegBits_roundTrip m0 g0 rd0 6 s0 (by decide) (by decide)
      (by decide) (by decide) (by decide) (by decide) (by decide)).1,
    (setRegBits_getRegBits_roundTrip m0 g0 rd0 6 s0 (by decide) (by decide)
      (by decide) (by decide) (by decide) (by decide) (by decide)).2.1,
    (setRegBits_getRegBits_roundTrip m0 g0 rd0 6 s0 (by decide) (by decide)
      (by decide) (by decide) (by decide) (by decide) (by decide)).2.2.2⟩

theorem bitCount_cons (a : Nat) (ps : List Nat) (b : Nat) :
    bitCount (a :: ps) b = (if b.testBit a then 1 else 0) + bitCount ps b := by
  simp [bitCount]

theorem bitCount_set_bit (ps : List Nat) (b p : Nat) :
    p ∉ ps → bitCount ps (b ||| 1 <<< p) = bitCount ps b := by
  induction ps with
  | nil => intro _; rfl
  | cons a t ih =>
    intro hp
    simp only [List.mem_cons, not_or] at hp
    have ht : (b ||| 1 <<< p).testBit a = b.testBit a := by
      rw [Nat.one_shiftLeft, Nat.testBit_or, Nat.testBit_two_pow]
      have hpa : ¬ p = a := hp.1
      simp [hpa]
    rw [bitCount_cons, bitCount_cons, ht, ih hp.2]

theorem bitCount_clear_bit (ps : List Nat) (b p : Nat) :
    p ∉ ps → (∀ i ∈ ps, i < 8) →
    bitCount ps (b &&& (255 ^^^ 1 <<< p)) = bitCount ps b := by
  induction ps with
  | nil => intro _ _; rfl
  | cons a t ih =>
    intro hp h8
    simp only [List.mem_cons, not_or] at hp
    have ha8 : a < 8 := h8 a (List.mem_cons_self a t)
    have ht : (b &&& (255 ^^^ 1 <<< p)).testBit a = b.testBit a := by
      have h255 : (255 : Nat) = 2 ^ 8 - 1 := by norm_num
      rw [Nat.one_shiftLeft, h255, Nat.testBit_and, Nat.testBit_xor,
        Nat.testBit_two_pow_sub_one, Nat.testBit_two_pow]
      have hpa : ¬ p = a := hp.1
      simp [hpa, ha8]
    rw [bitCount_cons, bitCount_cons, ht,
      ih hp.2 (fun i hi => h8 i (List.mem_cons_of_mem a hi))]

/-- C2: committing a parity-protected byte always runs the parity
recomputation (`calcParity` is bundled into `commitByte`), and the byte it
writes — both into the mirror and onto the physical bus — has an odd count
of set bits over the watched positions together with the parity bit. -/
theorem commitByte_parity_odd (watched : List Nat) (pBit addr : Nat)
    (s : SensorState)
    (hp : pBit ∉ watched) (hw8 : ∀ i ∈ watched, i < 8) (hp8 : pBit < 8) :
    bitCount (pBit :: watched)
        (calcParity watched pBit (s.regData.getD addr 0)) % 2 = 1 ∧
    (commitByte watched pBit addr s).regData =
      s.regData.set addr (calcParity watched pBit (s.regData.getD addr 0)) ∧
    (commitByte watched pBit addr s).busLog =
      s.busLog ++ [(addr, calcParity watched pBit (s.regData.getD addr 0))] := by
  refine ⟨?_, rfl, rfl⟩
  unfold calcParity
  by_cases he : bitCount watched (s.regData.getD addr 0) % 2 = 0
  · rw [if_pos he, bitCount_cons, bitCount_set_bit watched _ pBit hp]
    have htb : (s.regData.getD addr 0 ||| 1 <<< pBit).testBit pBit = true := by
      rw [Nat.one_shiftLeft, Nat.testBit_or, Nat.testBit_two_pow]
      simp
    rw [htb, if_pos rfl]
    omega
  · rw [if_neg he, bitCount_cons, bitCount_clear_bit watched _ pBit hp hw8]
    have htb : (s.regData.getD addr 0 &&& (255 ^^^ 1 <<< pBit)).testBit pBit
        = false := by
      have h255 : (255 : Nat) = 2 ^ 8 - 1 := by norm_num
      rw [Nat.one_shiftLeft, h255, Nat.testBit_and, Nat.testBit_xor,
        Nat.testBit_two_pow_sub_one, Nat.testBit_two_pow]
      simp [hp8]
    rw [htb, if_neg (by simp)]
    omega

/-- Witness for C2: committing byte 17 of the witness state `s0` with
watched positions 0–2 and parity bit 7. -/
theorem commitByte_parity_odd_witness :
    (7 ∉ [0, 1, 2] ∧ (∀ i ∈ [0, 1, 2], i < 8) ∧ 7 < 8) ∧
    bitCount (7 :: [0, 1, 2])
        (calcParity [0, 1, 2] 7 (s0.regData.getD 17 0)) % 2 = 1 ∧
    (commitByte [0, 1, 2] 7 17 s0).busLog =
      s0.busLog ++ [(17, calcParity [0, 1, 2] 7 (s0.regData.getD 17 0))] :=
  ⟨⟨by decide, by decide, by decide⟩,
    (commitByte_parity_odd [0, 1, 2] 7 17 s0 (by decide) (by decide)
      (by decide)).1,
    (commitByte_parity_odd [0, 1, 2] 7 17 s0 (by decide) (by decide)
      (by decide)).2.2⟩

/-- C3: for bytes `u`, `l`, `concatResults u l true` is the 12-bit
two's-complement value whose high-order 8 bits are `u` and whose low-order
4 bits are the top nibble of `l`, sign-extended into the int16 range
[-2048, 2047]; the temperature flag (`isB = false`) yields the very same
result. -/
theorem concatResults_assembly (u l : Nat) (hu : u < 256) (hl : l < 256) :
    (-2048 ≤ concatResults u l true ∧ concatResults u l true ≤ 2047) ∧
    (concatResults u l true % 4096).toNat = (u <<< 4) ||| (l >>> 4) ∧
    (∀ i, i < 8 → ((u <<< 4) ||| (l >>> 4)).testBit (4 + i) = u.testBit i) ∧
    (∀ i, i < 4 → ((u <<< 4) ||| (l >>> 4)).testBit i = l.testBit (4 + i)) ∧
    concatResults u l false = concatResults u l true := by
  have h16 : (2 : Nat) ^ 4 = 16 := by norm_num
  have h4096 : (2 : Nat) ^ 12 = 4096 := by norm_num
  have h1 : u <<< 4 < 2 ^ 12 := by
    rw [Nat.shiftLeft_eq, h16, h4096]
    omega
  have h2 : l >>> 4 < 2 ^ 12 := by
    rw [Nat.shiftRight_eq_div_pow, h16, h4096]
    omega
  have hraw : (u <<< 4) ||| (l >>> 4) < 4096 := by
    have := Nat.or_lt_two_pow h1 h2
    omega
  refine ⟨?_, ?_, ?_, ?_, rfl⟩
  · simp only [concatResults, signed12]
    split_ifs with h <;> constructor <;> omega
  · simp only [concatResults, signed12]
    split_ifs with h <;> omega
  · intro i hi
    have hlt : l.testBit (4 + (4 + i)) = false := by
      apply Nat.testBit_lt_two_pow
      calc l < 256 := hl
        _ = 2 ^ 8 := by norm_num
        _ ≤ 2 ^ (4 + (4 + i)) := Nat.pow_le_pow_right (by norm_num) (by omega)
    simp [Nat.testBit_or, Nat.testBit_shiftLeft, Nat.testBit_shiftRight,
      Nat.add_sub_cancel_left, hlt]
  · intro i hi
    have hns : ¬ 4 ≤ i := by omega
    simp [Nat.testBit_or, Nat.testBit_shiftLeft, Nat.testBit_shiftRight, hns]

/-- Witness for C3 at `u = 0x8F`, `l = 0xA5`. -/
theorem concatResults_assembly_witness :
    ((143 : Nat) < 256 ∧ (165 : Nat) < 256) ∧
    (-2048 ≤ concatResults 143 165 true ∧ concatResults 143 165 true ≤ 2047) ∧
    (concatResults 143 165 true % 4096).toNat =
      ((143 : Nat) <<< 4) ||| ((165 : Nat) >>> 4) ∧
    concatResults 143 165 false = concatResults 143 165 true :=
  ⟨⟨by decide, by decide⟩,
    (concatResults_assembly 143 165 (by decide) (by decide)).1,
    (concatResults_assembly 143 165 (by decide) (by decide)).2.1,
    (concatResults_assembly 143 165 (by decide) (by decide)).2.2.2.2⟩

/-- C4: `updateData` returns exactly one of no-error, bus-error and
frame-error; a transport failure yields bus-error; a frame whose byte
count differs from the active read protocol's expected length yields
frame-error; and on every non-no-error outcome the stored X, Y, Z and
temperature values (and hence the values the getters report) are left
unchanged. -/
theorem updateData_triState (br : Option (List Nat)) (s : SensorState) :
    ((updateData br s).1 = .TLI493D_NO_ERROR ∨
      (updateData br s).1 = .TLI493D_BUS_ERROR ∨
      (updateData br s).1 = .TLI493D_FRAME_ERROR) ∧
    ((updateData br s).1 ≠ .TLI493D_NO_ERROR →
      (updateData br s).2 = s ∧
      getX (updateData br s).2 = getX s ∧
      getY (updateData br s).2 = getY s ∧
      getZ (updateData br s).2 = getZ s ∧
      (updateData br s).2.mTempdata = s.mTempdata) ∧
    (br = none → (updateData br s).1 = .TLI493D_BUS_ERROR) ∧
    (∀ f, br = some f → f.length ≠ s.readLen →
      (updateData br s).1 = .TLI493D_FRAME_ERROR) := by
  match br with
  | none => simp [updateData]
  | some frame =>
    by_cases h : frame.length = s.readLen
    · simp [updateData, h]
    · simp [updateData, h]

/-- Witness for C4: a bus error and a one-byte frame against the expected
7-byte frame of `s0`, both leaving the stored sample intact. -/
theorem updateData_triState_witness :
    ((updateData none s0).1 ≠ .TLI493D_NO_ERROR ∧ (none : Option (List Nat)) = none ∧
      (updateData (some [9]) s0).1 ≠ .TLI493D_NO_ERROR ∧
      ([9] : List Nat).length ≠ s0.readLen) ∧
    (updateData none s0).1 = .TLI493D_BUS_ERROR ∧
    (updateData none s0).2 = s0 ∧
    (updateData (some [9]) s0).1 = .TLI493D_FRAME_ERROR ∧
    (updateData (some [9]) s0).2 = s0 :=
  ⟨⟨by decide, rfl, by decide, by decide⟩,
    (updateData_triState none s0).2.2.1 rfl,
    ((updateData_triState none s0).2.1 (by decide)).1,
    (updateData_triState (some [9]) s0).2.2.2 [9] rfl (by decide),
    ((updateData_triState (some [9]) s0).2.1 (by decide)).1⟩

/-- C5: while wake-up is enabled, `setMeasurementRange EXTRASHORT` returns
false and leaves the state untouched; after `disableWakeUp` the same call
succeeds and sets the extra-short range; and the mutual-exclusion
invariant (wake-up enabled and extra-short range never simultaneously
active) is preserved by the range setter, `enableWakeUp` and
`disableWakeUp`. -/
theorem setMeasurementRange_wakeup_guard (s : SensorState)
    (h : s.wakeUp = true) :
    setMeasurementRange .EXTRASHORT s = (false, s) ∧
    (setMeasurementRange .EXTRASHORT (disableWakeUp s)).1 = true ∧
    (setMeasurementRange .EXTRASHORT (disableWakeUp s)).2.range =
      .EXTRASHORT ∧
    (∀ t r, RangeWakeInv t → RangeWakeInv (setMeasurementRange r t).2) ∧
    (∀ t, RangeWakeInv t → RangeWakeInv (enableWakeUp t)) ∧
    (∀ t, RangeWakeInv t → RangeWakeInv (disableWakeUp t)) := by
  refine ⟨?_, ?_, ?_, ?_, ?_, ?_⟩
  · simp [setMeasurementRange, h]
  · simp [setMeasurementRange, disableWakeUp]
  · simp [setMeasurementRange, disableWakeUp]
  · intro t r hInv
    unfold setMeasurementRange
    by_cases hc : r = Range_e.EXTRASHORT ∧ t.wakeUp = true
    · rw [if_pos hc]
      exact hInv
    · rw [if_neg hc]
      constructor
      · intro hr
        have hr' : r = Range_e.EXTRASHORT := hr
        show decide (r = Range_e.EXTRASHORT) = true
        simp [hr']
      · rintro ⟨hw, hr⟩
        exact hc ⟨hr, hw⟩
  · intro t hInv
    unfold enableWakeUp
    by_cases hc : t.tBit = false ∧ t.cpOdd = true ∧ t.cfFlag = true
    · rw [if_pos hc]
      refine ⟨fun hr => hInv.1 hr, ?_⟩
      rintro ⟨_, hr⟩
      have := hInv.1 hr
      rw [this] at hc
      exact absurd hc.1 (by simp)
    · rw [if_neg hc]
      exact hInv
  · intro t hInv
    refine ⟨fun hr => hInv.1 hr, ?_⟩
    rintro ⟨hw, _⟩
    simp [disableWakeUp] at hw

/-- Witness for C5 at the concrete state `s0` (wake-up enabled). -/
theorem setMeasurementRange_wakeup_guard_witness :
    s0.wakeUp = true ∧
    setMeasurementRange .EXTRASHORT s0 = (false, s0) ∧
    (setMeasurementRange .EXTRASHORT (disableWakeUp s0)).1 = true ∧
    (setMeasurementRange .EXTRASHORT (disableWakeUp s0)).2.range =
      .EXTRASHORT :=
  ⟨by decide, (setMeasurementRange_wakeup_guard s0 (by decide)).1,
    (setMeasurementRange_wakeup_guard s0 (by decide)).2.1,
    (setMeasurementRange_wakeup_guard s0 (by decide)).2.2.1⟩

/-- C6: for each of the three threshold setters, when the arguments pass
the domain and ordering checks but some axis span (upper minus lower)
exceeds half the output range (2048 LSB), the call returns false and yet
the (converted) thresholds have been written to the wake-up registers of
the mirror — the deliberate partial side effect on the failure path. -/
theorem threshold_span_partial_write (xh xl yh yl zh zl : Int)
    (qxh qxl qyh qyl qzh qzl mxh mxl myh myl mzh mzl : ℚ) (s : SensorState)
    (hL1 : ¬lsbDomainBad xh xl yh yl zh zl)
    (hL2 : spanBad xh xl yh yl zh zl)
    (hR1 : ¬ratioDomainBad qxh qxl qyh qyl qzh qzl)
    (hR2 : ¬lsbDomainBad (ratioToLSB qxh) (ratioToLSB qxl) (ratioToLSB qyh)
      (ratioToLSB qyl) (ratioToLSB qzh) (ratioToLSB qzl))
    (hR3 : spanBad (ratioToLSB qxh) (ratioToLSB qxl) (ratioToLSB qyh)
      (ratioToLSB qyl) (ratioToLSB qzh) (ratioToLSB qzl))
    (hM1 : ¬mtOrderBad mxh mxl myh myl mzh mzl)
    (hM2 : ¬lsbDomainBad (mTToLSB mxh s.range) (mTToLSB mxl s.range)
      (mTToLSB myh s.range) (mTToLSB myl s.range) (mTToLSB mzh s.range)
      (mTToLSB mzl s.range))
    (hM3 : spanBad (mTToLSB mxh s.range) (mTToLSB mxl s.range)
      (mTToLSB myh s.range) (mTToLSB myl s.range) (mTToLSB mzh s.range)
      (mTToLSB mzl s.range)) :
    setWakeUpThresholdLSB xh xl yh yl zh zl s =
      (false, writeWakeUpRegs xh xl yh yl zh zl s) ∧
    setWakeUpThreshold qxh qxl qyh qyl qzh qzl s =
      (false, writeWakeUpRegs (ratioToLSB qxh) (ratioToLSB qxl)
        (ratioToLSB qyh) (ratioToLSB qyl) (ratioToLSB qzh) (ratioToLSB qzl)
        s) ∧
    setWakeUpThresholdMT mxh mxl myh myl mzh mzl s =
      (false, writeWakeUpRegs (mTToLSB mxh s.range) (mTToLSB mxl s.range)
        (mTToLSB myh s.range) (mTToLSB myl s.range) (mTToLSB mzh s.range)
        (mTToLSB mzl s.range) s) := by
  refine ⟨?_, ?_, ?_⟩
  · simp [setWakeUpThresholdLSB, hL1, hL2]
  · simp [setWakeUpThreshold, setWakeUpThresholdLSB, hR1, hR2, hR3]
  · simp [setWakeUpThresholdMT, setWakeUpThresholdLSB, hM1, hM2, hM3]

theorem ratioToLSB_one : ratioToLSB 1 = 2047 := by
  have h : ((1 : ℚ) * 2047) = ((2047 : ℤ) : ℚ) := by norm_num
  rw [ratioToLSB, h, round_intCast]

theorem ratioToLSB_negOne : ratioToLSB (-1) = -2047 := by
  have h : ((-1 : ℚ) * 2047) = ((-2047 : ℤ) : ℚ) := by norm_num
  rw [ratioToLSB, h, round_intCast]

theorem ratioToLSB_zero : ratioToLSB 0 = 0 := by
  have h : ((0 : ℚ) * 2047) = ((0 : ℤ) : ℚ) := by norm_num
  rw [ratioToLSB, h, round_intCast]

theorem s0_range_full : s0.range = .FULL := rfl

theorem mTToLSB_twoHundred : mTToLSB 200 s0.range = 1540 := by
  rw [s0_range_full]
  have h : ((200 : ℚ) * scaleOf .FULL) = ((1540 : ℤ) : ℚ) := by
    norm_num [scaleOf]
  rw [mTToLSB, h, round_intCast]

theorem mTToLSB_negTwoHundred : mTToLSB (-200) s0.range = -1540 := by
  rw [s0_range_full]
  have h : ((-200 : ℚ) * scaleOf .FULL) = ((-1540 : ℤ) : ℚ) := by
    norm_num [scaleOf]
  rw [mTToLSB, h, round_intCast]

theorem mTToLSB_zero : mTToLSB 0 s0.range = 0 := by
  rw [s0_range_full]
  have h : ((0 : ℚ) * scaleOf .FULL) = ((0 : ℤ) : ℚ) := by norm_num [scaleOf]
  rw [mTToLSB, h, round_intCast]

/-- Witness for C6: spans of 4094 LSB (raw and via ratio ±1) and 3080 LSB
(via ±200 mT in the full range) on the x axis. -/
theorem threshold_span_partial_write_witness :
    (¬lsbDomainBad 2047 (-2047) 0 0 0 0 ∧ spanBad 2047 (-2047) 0 0 0 0 ∧
      ¬ratioDomainBad 1 (-1) 0 0 0 0 ∧
      ¬lsbDomainBad (ratioToLSB 1) (ratioToLSB (-1)) (ratioToLSB 0)
        (ratioToLSB 0) (ratioToLSB 0) (ratioToLSB 0) ∧
      spanBad (ratioToLSB 1) (ratioToLSB (-1)) (ratioToLSB 0) (ratioToLSB 0)
        (ratioToLSB 0) (ratioToLSB 0) ∧
      ¬mtOrderBad 200 (-200) 0 0 0 0 ∧
      ¬lsbDomainBad (mTToLSB 200 s0.range) (mTToLSB (-200) s0.range)
        (mTToLSB 0 s0.range) (mTToLSB 0 s0.range) (mTToLSB 0 s0.range)
        (mTToLSB 0 s0.range) ∧
      spanBad (mTToLSB 200 s0.range) (mTToLSB (-200) s0.range)
        (mTToLSB 0 s0.range) (mTToLSB 0 s0.range) (mTToLSB 0 s0.range)
        (mTToLSB 0 s0.range)) ∧
    setWakeUpThresholdLSB 2047 (-2047) 0 0 0 0 s0 =
      (false, writeWakeUpRegs 2047 (-2047) 0 0 0 0 s0) ∧
    setWakeUpThreshold 1 (-1) 0 0 0 0 s0 =
      (false, writeWakeUpRegs (ratioToLSB 1) (ratioToLSB (-1)) (ratioToLSB 0)
        (ratioToLSB 0) (ratioToLSB 0) (ratioToLSB 0) s0) ∧
    setWakeUpThresholdMT 200 (-200) 0 0 0 0 s0 =
      (false, writeWakeUpRegs (mTToLSB 200 s0.range) (mTToLSB (-200) s0.range)
        (mTToLSB 0 s0.range) (mTToLSB 0 s0.range) (mTToLSB 0 s0.range)
        (mTToLSB 0 s0.range) s0) := by
  have hR2 : ¬lsbDomainBad (ratioToLSB 1) (ratioToLSB (-1)) (ratioToLSB 0)
      (ratioToLSB 0) (ratioToLSB 0) (ratioToLSB 0) := by
    simp only [ratioToLSB_one, ratioToLSB_negOne, ratioToLSB_zero]
    decide
  have hR3 : spanBad (ratioToLSB 1) (ratioToLSB (-1)) (ratioToLSB 0)
      (ratioToLSB 0) (ratioToLSB 0) (ratioToLSB 0) := by
    simp only [ratioToLSB_one, ratioToLSB_negOne, ratioToLSB_zero]
    decide
  have hM2 : ¬lsbDomainBad (mTToLSB 200 s0.range) (mTToLSB (-200) s0.range)
      (mTToLSB 0 s0.range) (mTToLSB 0 s0.range) (mTToLSB 0 s0.range)
      (mTToLSB 0 s0.range) := by
    simp only [mTToLSB_twoHundred, mTToLSB_negTwoHundred, mTToLSB_zero]
    decide
  have hM3 : spanBad (mTToLSB 200 s0.range) (mTToLSB (-200) s0.range)
      (mTToLSB 0 s0.range) (mTToLSB 0 s0.range) (mTToLSB 0 s0.range)
      (mTToLSB 0 s0.range) := by
    simp only [mTToLSB_twoHundred, mTToLSB_negTwoHundred, mTToLSB_zero]
    decide
  have h := threshold_span_partial_write 2047 (-2047) 0 0 0 0 1 (-1) 0 0 0 0
    200 (-200) 0 0 0 0 s0 (by decide) (by decide) (by decide) hR2 hR3
    (by decide) hM2 hM3
  exact ⟨⟨by decide, by decide, by decide, hR2, hR3, by decide, hM2, hM3⟩,
    h.1, h.2.1, h.2.2⟩

/-- C7: for each of the three threshold setters, an argument outside the
stated domain ([-1, 1] ratio, [-2048, 2047] LSB, the representable mT
range) or an upper threshold below its paired lower threshold makes the
call return false with no register write at all — the state is returned
unchanged. -/
theorem threshold_domain_reject (xh xl yh yl zh zl : Int)
    (qxh qxl qyh qyl qzh qzl mxh mxl myh myl mzh mzl : ℚ) (s : SensorState)
    (hL : lsbDomainBad xh xl yh yl zh zl)
    (hR : ratioDomainBad qxh qxl qyh qyl qzh qzl)
    (hM : mtOrderBad mxh mxl myh myl mzh mzl ∨
      lsbDomainBad (mTToLSB mxh s.range) (mTToLSB mxl s.range)
        (mTToLSB myh s.range) (mTToLSB myl s.range) (mTToLSB mzh s.range)
        (mTToLSB mzl s.range)) :
    setWakeUpThresholdLSB xh xl yh yl zh zl s = (false, s) ∧
    setWakeUpThreshold qxh qxl qyh qyl qzh qzl s = (false, s) ∧
    setWakeUpThresholdMT mxh mxl myh myl mzh mzl s = (false, s) := by
  refine ⟨?_, ?_, ?_⟩
  · unfold setWakeUpThresholdLSB
    rw [if_pos hL]
  · unfold setWakeUpThreshold
    rw [if_pos hR]
  · unfold setWakeUpThresholdMT
    by_cases ho : mtOrderBad mxh mxl myh myl mzh mzl
    · rw [if_pos ho]
    · rw [if_neg ho]
      rcases hM with hM | hM
      · exact absurd hM ho
      · unfold setWakeUpThresholdLSB
        rw [if_pos hM]

/-- Witness for C7: an out-of-domain LSB value (3000), an out-of-domain
ratio (2) and a mis-ordered mT pair (upper 0 below lower 1), each leaving
the witness state `s0` untouched. -/
theorem threshold_domain_reject_witness :
    (lsbDomainBad 3000 0 0 0 0 0 ∧ ratioDomainBad 2 0 0 0 0 0 ∧
      mtOrderBad 0 1 0 0 0 0) ∧
    setWakeUpThresholdLSB 3000 0 0 0 0 0 s0 = (false, s0) ∧
    setWakeUpThreshold 2 0 0 0 0 0 s0 = (false, s0) ∧
    setWakeUpThresholdMT 0 1 0 0 0 0 s0 = (false, s0) := by
  have h := threshold_domain_reject 3000 0 0 0 0 0 2 0 0 0 0 0 0 1 0 0 0 0 s0
    (by decide) (by decide) (Or.inl (by decide))
  exact ⟨⟨by decide, by decide, by decide⟩, h.1, h.2.1, h.2.2⟩

/-- C8 counterexample: the header declares `void disableBz(void)`, so the
caller-visible return value is the same `Unit` value whether the
precondition (temperature already disabled) holds or not — the violation
is not reported synchronously via any boolean/failure result.  At the
concrete states: with temperature enabled the call has no effect and with
temperature disabled it clears Bz, yet both calls return identical
values. -/
theorem disableBz_no_failure_report :
    s0.tempEnabled = true ∧ (disableBz s0).2 = s0 ∧
    sTempOff.tempEnabled = false ∧ sTempOff.bzEnabled = true ∧
    (disableBz sTempOff).2.bzEnabled = false ∧
    (disableBz s0).1 = (disableBz sTempOff).1 := by
  decide

/-- C8 amended: `disableBz` fails silently (void return, no failure
indication to the caller) with no effect unless temperature measurement is
already disabled, in which case it disables Bz; `enableBz` and
`enableTemp` succeed unconditionally. -/
theorem disableBz_guard (s : SensorState) (h : s.tempEnabled = true) :
    disableBz s = ((), s) ∧
    (∀ t, t.tempEnabled = false → (disableBz t).2.bzEnabled = false) ∧
    (∀ t, (disableBz t).1 = ()) ∧
    (∀ t, (enableBz t).2.bzEnabled = true) ∧
    (∀ t, (enableTemp t).2.tempEnabled = true) := by
  refine ⟨by simp [disableBz, h], ?_, fun t => rfl, fun t => rfl, fun t => rfl⟩
  intro t ht
  simp [disableBz, ht]

/-- Witness for the amended C8 at the concrete state `s0` (temperature
enabled). -/
theorem disableBz_guard_witness :
    s0.tempEnabled = true ∧ disableBz s0 = ((), s0) :=
  ⟨by decide, (disableBz_guard s0 (by decide)).1⟩

/-- C9: physical conversion divides the raw value by the active range's
fixed scale constant (full 7.7 LSB/mT, short 15.4 LSB/mT, extra-short
30.8 LSB/mT); raw value 77 converts to 10.0 mT (within 0.1 mT) under the
full range and to 5.0 mT under the short range. -/
theorem toPhysical_range_scaling :
    scaleOf .FULL = 77 / 10 ∧ scaleOf .SHORT = 154 / 10 ∧
    scaleOf .EXTRASHORT = 308 / 10 ∧
    (∀ (raw : Int) (r : Range_e),
      toPhysical raw (scaleOf r) = (raw : ℚ) / scaleOf r) ∧
    toPhysical 77 (scaleOf .FULL) = 10 ∧
    |toPhysical 77 (scaleOf .FULL) - 10| ≤ 1 / 10 ∧
    toPhysical 77 (scaleOf .SHORT) = 5 := by
  refine ⟨rfl, rfl, rfl, fun raw r => rfl, ?_, ?_, ?_⟩ <;>
    norm_num [toPhysical, scaleOf]

/-- C10: the numeric encodings of the valid configuration values are
exactly those of the header enums — access modes 0, 1, 3 and ranges
0, 1, 3 — and the reserved encoding 2 is unrepresentable, so no driver
state ever stores encoding 2 for its mode or range. -/
theorem enum_encodings :
    AccessMode_e.encode .LOWPOWERMODE = 0 ∧
    AccessMode_e.encode .MASTERCONTROLLEDMODE = 1 ∧
    AccessMode_e.encode .FASTMODE = 3 ∧
    Range_e.encode .FULL = 0 ∧ Range_e.encode .SHORT = 1 ∧
    Range_e.encode .EXTRASHORT = 3 ∧
    (∀ m : AccessMode_e, AccessMode_e.encode m ≠ 2) ∧
    (∀ r : Range_e, Range_e.encode r ≠ 2) ∧
    (∀ s : SensorState,
      AccessMode_e.encode s.mMode ≠ 2 ∧ Range_e.encode s.range ≠ 2) := by
  have hm : ∀ m : AccessMode_e, AccessMode_e.encode m ≠ 2 := by
    intro m
    cases m <;> decide
  have hr : ∀ r : Range_e, Range_e.encode r ≠ 2 := by
    intro r
    cases r <;> decide
  exact ⟨rfl, rfl, rfl, rfl, rfl, rfl, hm, hr,
    fun s => ⟨hm s.mMode, hr s.range⟩⟩
